import Mathlib

/-!
Verification of `scripts/generate_godot_types.py` (godot-bevy type generator).

The Python script is shallowly embedded below: pure helper functions become
Lean functions on `String`/`List`; Python `dict`s become association lists;
Python `set`s become duplicate-free lists (insertion order) or `Finset`s;
the recursive traversals take an explicit fuel argument (the Python code
recurses without a guard, which terminates exactly on the acyclic inputs the
schema provides; on such inputs any sufficiently large fuel computes the same
result).  The orchestration in `GodotTypeGenerator.run` is embedded as a step
function over an environment recording which external effects succeed.
-/

namespace GodotGen

/-! ### String helpers (kernel-reducible models of `str.startswith`, `sorted`, concatenation) -/

/-- Model of Python `pattern`-at-front test on character lists. -/
def startsWithChars : List Char → List Char → Bool
  | _, [] => true
  | [], _ :: _ => false
  | a :: as, b :: bs => a == b && startsWithChars as bs

/-- Model of Python `s.startswith(pre)`. -/
def pyStartsWith (s pre : String) : Bool := startsWithChars s.data pre.data

/-- Lexicographic `≤` on character lists (code-point order, as Python compares `str`). -/
def leChars : List Char → List Char → Bool
  | [], _ => true
  | _ :: _, [] => false
  | a :: as, b :: bs => if a < b then true else if b < a then false else leChars as bs

/-- Insert a string into an already sorted list. -/
def insertSorted (a : String) : List String → List String
  | [] => [a]
  | b :: l => if leChars a.data b.data then a :: b :: l else b :: insertSorted a l

/-- Model of Python `sorted` on a list of strings (stable insertion sort). -/
def pySorted (l : List String) : List String := l.foldr insertSorted []

/-- Concatenation of a list of strings. -/
def strConcat (l : List String) : String := l.foldr (fun a b => a ++ b) ""

/-! ### Schema and maps (`load_and_parse_extension_api`, lines 78-120) -/

/-- A schema is the `classes` list of `extension_api.json`: each entry has a
`name` and an optional `inherits` parent name. -/
abbrev Schema := List (String × Option String)

/-- Children index: for each parent, the derived class names (`inheritance_map`,
a `defaultdict(list)` filled in schema order). -/
abbrev ChildrenMap := List (String × List String)

/-- Parent index (`parent_map`). -/
abbrev ParentMap := List (String × String)

/-- Children of a class under a `ChildrenMap` (`inheritance_map.get(class_name, [])`). -/
def childrenOf (m : ChildrenMap) (c : String) : List String :=
  match m.find? (fun q => decide (q.1 = c)) with
  | some q => q.2
  | none => []

/-- Parent of a class under a `ParentMap` (`parent_map[name]` lookup). -/
def lookupParent (pm : ParentMap) (c : String) : Option String :=
  (pm.find? (fun q => decide (q.1 = c))).map (fun q => q.2)

/-- Build `inheritance_map` from the schema: every parent name mentioned in an
`inherits` field is mapped to the list of its children, in schema order. -/
def inheritance_map (s : Schema) : ChildrenMap :=
  ((s.filterMap (fun c => c.2)).dedup).map
    (fun par => (par, s.filterMap (fun c => if c.2 = some par then some c.1 else none)))

/-- Build `parent_map` from the schema. -/
def parent_map (s : Schema) : ParentMap :=
  s.filterMap (fun c => c.2.map (fun par => (c.1, par)))

/-! ### Descendant Collector (`collect_descendants`, lines 99-107)

The Python function mutates a shared `node_types` set: it adds the class, then
recurses into each child.  `collect_aux` is that recursion with the set as an
explicit accumulator (a duplicate-free list in insertion order) and a fuel
bound on the recursion depth. -/

def collect_aux : Nat → ChildrenMap → String → List String → List String
  | 0, _, c, acc => if c ∈ acc then acc else acc ++ [c]
  | fuel + 1, m, c, acc =>
      let acc1 := if c ∈ acc then acc else acc ++ [c]
      (childrenOf m c).foldl (fun a ch => collect_aux fuel m ch a) acc1

/-- Set of `c` together with every class reachable from it along children edges
(`collect_descendants(root)` starting from an empty set). -/
def collect_descendants (fuel : Nat) (m : ChildrenMap) (c : String) : List String :=
  collect_aux fuel m c []

/-! ### Class Filter (lines 109-117) -/

def excluded_prefixes : List String := ["Editor", "ScriptEditor", "VisualShader"]

def excluded_types : List String := ["Node", "MissingNode", "ImporterMeshInstance3D"]

/-- The filtered, sorted taxonomy returned by `load_and_parse_extension_api`:
Node descendants minus excluded prefixes and excluded names, sorted. -/
def filtered_types (s : Schema) : List String :=
  pySorted ((collect_descendants (s.length + 1) (inheritance_map s) "Node").filter
    (fun t => !(excluded_prefixes.any (fun q => pyStartsWith t q))
      && !(decide (t ∈ excluded_types))))

/-! ### Version Gate Resolver (`version_gated_types` lines 33-44,
`get_type_cfg_attribute` lines 122-127) -/

def version_gated_types : List (String × List String) :=
  [("4-4",
    ["LookAtModifier3D",
     "RetargetModifier3D",
     "SpringBoneSimulator3D",
     "SpringBoneCollision3D",
     "SpringBoneCollisionCapsule3D",
     "SpringBoneCollisionPlane3D",
     "SpringBoneCollisionSphere3D"])]

/-- Returns the cfg attribute string for a version-gated type, "" otherwise. -/
def get_type_cfg_attribute (node_type : String) : String :=
  match version_gated_types.find? (fun q => decide (node_type ∈ q.2)) with
  | some q => "#[cfg(feature = \"api-" ++ q.1 ++ "\")]\n"
  | none => ""

/-! ### Marker Declaration Emitter (`generate_node_markers`, lines 129-158) -/

def node_markers_header : String :=
  "use bevy::ecs::component::Component;\n\n/// Marker components for Godot node types.\n/// These enable type-safe ECS queries like: Query<&GodotNodeHandle, With<Sprite2DMarker>>\n///\n/// 🤖 This file is automatically generated by scripts/generate_godot_types.py\n/// To regenerate: python scripts/generate_godot_types.py\n\n// Base node type marker\n#[derive(Component, Debug, Clone, Copy, PartialEq, Eq)]\npub struct NodeMarker;\n\n"

def derive_line : String := "#[derive(Component, Debug, Clone, Copy, PartialEq, Eq)]\n"

def struct_line (t : String) : String := "pub struct " ++ t ++ "Marker;\n\n"

/-- The chunk of `node_markers.rs` emitted for one class: its optional cfg
attribute, the derive line, and the marker struct declaration. -/
def marker_decl (t : String) : String := get_type_cfg_attribute t ++ derive_line ++ struct_line t

/-- Full content written to `node_markers.rs` (`content` accumulation loop). -/
def generate_node_markers_content (node_types : List String) : String :=
  node_types.foldl (fun content t => content ++ marker_decl t) node_markers_header

/-- The classes for which `generate_node_markers` emits a marker declaration:
one per element of its `node_types` argument. -/
def marker_member_names (node_types : List String) : List String := node_types

/-! ### Hierarchy Categorizer (`categorize_types_by_hierarchy`, lines 160-188) -/

/-- Strict ancestor test (`is_descendant_of`): start at the class's parent and
walk the parent chain, comparing each ancestor with `ancestor`. -/
def is_descendant_of (fuel : Nat) (pm : ParentMap) (node_type ancestor : String) : Bool :=
  match fuel with
  | 0 => false
  | f + 1 =>
    match lookupParent pm node_type with
    | none => false
    | some p => if p = ancestor then true else is_descendant_of f pm p ancestor

inductive Category
  | c3d
  | c2d
  | control
  | universal
deriving DecidableEq

/-- The if/elif chain of the categorizer loop body, as a per-class function:
Node3D descendants first, then Node2D, then Control, then direct Node
children; anything else gets no category. -/
def categoryOf (fuel : Nat) (pm : ParentMap) (t : String) : Option Category :=
  if is_descendant_of fuel pm t "Node3D" then some Category.c3d
  else if is_descendant_of fuel pm t "Node2D" then some Category.c2d
  else if is_descendant_of fuel pm t "Control" then some Category.control
  else if lookupParent pm t = some "Node" then some Category.universal
  else none

structure Categories where
  threeD : List String
  twoD : List String
  control : List String
  universal : List String
deriving DecidableEq

/-- The four buckets built by `categorize_types_by_hierarchy`: iterating
`node_types` and appending each class to the bucket its first matching
ancestry test selects keeps, per bucket, exactly the classes (in input order)
whose `categoryOf` is that bucket. -/
def categorize_types_by_hierarchy (fuel : Nat) (node_types : List String) (pm : ParentMap) :
    Categories :=
  { threeD := node_types.filter (fun t => decide (categoryOf fuel pm t = some Category.c3d))
    twoD := node_types.filter (fun t => decide (categoryOf fuel pm t = some Category.c2d))
    control := node_types.filter (fun t => decide (categoryOf fuel pm t = some Category.control))
    universal := node_types.filter (fun t => decide (categoryOf fuel pm t = some Category.universal)) }

/-- Bucket projection, indexed by category. -/
def bucketOf (cat : Category) (cats : Categories) : List String :=
  match cat with
  | Category.c3d => cats.threeD
  | Category.c2d => cats.twoD
  | Category.control => cats.control
  | Category.universal => cats.universal

/-! ### Known-unavailable filter (`filter_valid_godot_classes`, lines 289-321) -/

def excluded_classes : List String :=
  ["CSGBox3D", "CSGCombiner3D", "CSGCylinder3D", "CSGMesh3D", "CSGPolygon3D",
   "CSGPrimitive3D", "CSGShape3D", "CSGSphere3D", "CSGTorus3D",
   "GridMapEditorPlugin", "ScriptCreateDialog", "FileSystemDock",
   "OpenXRBindingModifierEditor", "OpenXRInteractionProfileEditor",
   "OpenXRInteractionProfileEditorBase",
   "XRAnchor3D", "XRBodyModifier3D", "XRCamera3D", "XRController3D",
   "XRFaceModifier3D", "XRHandModifier3D", "XRNode3D", "XROrigin3D",
   "OpenXRCompositionLayer", "OpenXRCompositionLayerCylinder",
   "OpenXRCompositionLayerEquirect", "OpenXRCompositionLayerQuad",
   "OpenXRHand", "OpenXRVisibilityMask",
   "VoxelGI", "LightmapGI", "FogVolume", "WorldEnvironment",
   "NavigationAgent2D", "NavigationAgent3D", "NavigationLink2D",
   "NavigationLink3D", "NavigationObstacle2D", "NavigationObstacle3D",
   "NavigationRegion2D", "NavigationRegion3D",
   "StatusIndicator",
   "GraphEdit", "GraphElement", "GraphFrame", "GraphNode",
   "Parallax2D"]

def filter_valid_godot_classes (node_types : List String) : List String :=
  node_types.filter (fun t => !(decide (t ∈ excluded_classes)))

/-! ### Name Normalizer (`fix_godot_class_name_for_rust`, lines 323-345) -/

def name_fixes : List (String × String) :=
  [("CPUParticles2D", "CpuParticles2D"),
   ("CPUParticles3D", "CpuParticles3D"),
   ("GPUParticles2D", "GpuParticles2D"),
   ("GPUParticles3D", "GpuParticles3D"),
   ("GPUParticlesAttractor3D", "GpuParticlesAttractor3D"),
   ("GPUParticlesAttractorBox3D", "GpuParticlesAttractorBox3D"),
   ("GPUParticlesAttractorSphere3D", "GpuParticlesAttractorSphere3D"),
   ("GPUParticlesAttractorVectorField3D", "GpuParticlesAttractorVectorField3D"),
   ("GPUParticlesCollision3D", "GpuParticlesCollision3D"),
   ("GPUParticlesCollisionBox3D", "GpuParticlesCollisionBox3D"),
   ("GPUParticlesCollisionHeightField3D", "GpuParticlesCollisionHeightField3D"),
   ("GPUParticlesCollisionSDF3D", "GpuParticlesCollisionSdf3d"),
   ("GPUParticlesCollisionSphere3D", "GpuParticlesCollisionSphere3D"),
   ("HTTPRequest", "HttpRequest"),
   ("SkeletonIK3D", "SkeletonIk3d"),
   ("Generic6DOFJoint3D", "Generic6DofJoint3D")]

def fix_godot_class_name_for_rust (class_name : String) : String :=
  match name_fixes.find? (fun q => decide (q.1 = class_name)) with
  | some q => q.2
  | none => class_name

/-! ### String-keyed dispatcher (`_generate_string_match_arms`, lines 347-435,
and the surrounding `add_node_type_markers_from_string` of lines 240-254)

Each emitted match arm is modelled as the matched type-name string together
with the list of marker components its body inserts.  The five base arms come
first; then the per-bucket arms, skipping the base types already handled. -/

def string_match_arms (cats : Categories) : List (String × List String) :=
  [("Node3D", ["Node3DMarker"]),
   ("Node2D", ["Node2DMarker", "CanvasItemMarker"]),
   ("Control", ["ControlMarker", "CanvasItemMarker"]),
   ("CanvasItem", ["CanvasItemMarker"]),
   ("Node", [])]
  ++ (cats.threeD.filter (fun t => !(decide (t = "Node3D")))).map
      (fun t => (t, ["Node3DMarker", t ++ "Marker"]))
  ++ (cats.twoD.filter (fun t => !(decide (t = "Node2D")))).map
      (fun t => (t, ["Node2DMarker", "CanvasItemMarker", t ++ "Marker"]))
  ++ (cats.control.filter (fun t => !(decide (t = "Control")))).map
      (fun t => (t, ["ControlMarker", "CanvasItemMarker", t ++ "Marker"]))
  ++ (cats.universal.filter (fun t => !(decide (t ∈ ["Node", "CanvasItem", "Node3D"])))).map
      (fun t => (t, [t ++ "Marker"]))

/-- The set of type-name strings the generated `match` handles (arm patterns). -/
def string_match_arm_names (cats : Categories) : List String :=
  (string_match_arms cats).map (fun a => a.1)

/-- Semantics of the generated `add_node_type_markers_from_string`: the base
`NodeMarker` is always inserted, then the first arm whose pattern equals the
input string runs; an unmatched string hits the empty default arm. -/
def add_node_type_markers_from_string (cats : Categories) (node_type : String) : List String :=
  "NodeMarker" ::
    (match (string_match_arms cats).find? (fun a => decide (a.1 = node_type)) with
     | some a => a.2
     | none => [])

/-! ### Dispatcher member sets (`generate_type_checking_code`, lines 190-287)

`generate_type_checking_code` first applies `filter_valid_godot_classes`,
then categorizes; probe functions and match arms are generated exactly for
the members of the four resulting buckets. -/

def dispatcher_member_names (fuel : Nat) (node_types : List String) (pm : ParentMap) :
    List String :=
  let cats := categorize_types_by_hierarchy fuel (filter_valid_godot_classes node_types) pm
  cats.threeD ++ cats.twoD ++ cats.control ++ cats.universal

/-! ### Companion GDScript classifier (`_generate_gdscript_type_analysis`,
lines 537-614)

The emitted `_analyze_node_type` returns, per branch, the common types of the
branch that are in the bucket, then the remaining bucket members sorted, then
the branch fallback name; after the three branches come the universal types
and the final "Node" fallback.  `gdscript_return_names` is the list of string
literals the emitted function can return. -/

def common_3d : List String :=
  ["MeshInstance3D", "StaticBody3D", "RigidBody3D", "CharacterBody3D", "Area3D",
   "Camera3D", "DirectionalLight3D", "OmniLight3D", "SpotLight3D", "CollisionShape3D"]

def common_2d : List String :=
  ["Sprite2D", "StaticBody2D", "RigidBody2D", "CharacterBody2D", "Area2D",
   "Camera2D", "CollisionShape2D", "AnimatedSprite2D"]

def common_control : List String :=
  ["Button", "Label", "Panel", "VBoxContainer", "HBoxContainer",
   "MarginContainer", "ColorRect", "LineEdit", "TextEdit", "CheckBox"]

def common_universal : List String :=
  ["AnimationPlayer", "Timer", "AudioStreamPlayer", "HTTPRequest", "CanvasLayer"]

def gdscript_branch_returns (common bucket : List String) (fallback : String) : List String :=
  common.filter (fun t => decide (t ∈ bucket))
  ++ (pySorted bucket).filter (fun t => !(decide (t ∈ common)))
  ++ [fallback]

def gdscript_universal_returns (uni : List String) : List String :=
  common_universal.filter (fun t => decide (t ∈ uni))
  ++ (pySorted uni).filter (fun t => !(decide (t ∈ common_universal)))

def gdscript_return_names (cats : Categories) : List String :=
  gdscript_branch_returns common_3d cats.threeD "Node3D"
  ++ gdscript_branch_returns common_2d cats.twoD "Node2D"
  ++ gdscript_branch_returns common_control cats.control "Control"
  ++ gdscript_universal_returns cats.universal
  ++ ["Node"]

/-! ### Pipeline orchestration (`GodotTypeGenerator.run`, lines 805-848, and
`verify_plugin_integration`, lines 790-803)

`run` executes the steps in order inside one `try`; any exception reaches the
handler, which prints and calls `sys.exit(1)`.  Each generation step writes
its whole output file at its end; a step that fails is modelled as leaving
its own file unwritten (a truncating partial write would only be worse for
atomicity).  `verify_plugin_integration` opens the plugin file for reading:
a missing file raises (fatal); a present file is scanned for the entry-point
name and at most a warning is printed.  The plugin file is never written. -/

inductive GenFile
  | node_markers
  | type_checking
  | gdscript_watcher
  | plugin
deriving DecidableEq

structure PipelineEnv where
  dump_ok : Bool
  parse_ok : Bool
  markers_write_ok : Bool
  type_checking_write_ok : Bool
  gdscript_write_ok : Bool
  plugin_file : Option Bool
deriving DecidableEq

structure RunResult where
  exit_code : Nat
  written : List GenFile
  warned : Bool
deriving DecidableEq

def artifact_files : List GenFile :=
  [GenFile.node_markers, GenFile.type_checking, GenFile.gdscript_watcher]

def run_pipeline (env : PipelineEnv) : RunResult :=
  if !env.dump_ok then ⟨1, [], false⟩
  else if !env.parse_ok then ⟨1, [], false⟩
  else if !env.markers_write_ok then ⟨1, [], false⟩
  else if !env.type_checking_write_ok then ⟨1, [GenFile.node_markers], false⟩
  else if !env.gdscript_write_ok then ⟨1, [GenFile.node_markers, GenFile.type_checking], false⟩
  else
    match env.plugin_file with
    | none => ⟨1, artifact_files, false⟩
    | some has_ref => ⟨0, artifact_files, !has_ref⟩

/-! ### Concrete fixtures used by counterexamples and witnesses -/

/-- The synthetic graph of the spec: Root -> (A, B), A -> A1. -/
def exampleGraph : ChildrenMap := [("Root", ["A", "B"]), ("A", ["A1"])]

/-- Depth measure for `exampleGraph`. -/
def exampleMeas : String → Nat :=
  fun s => if s = "Root" then 0 else if s = "A1" then 2 else 1

/-- A minimal schema containing Node2D under CanvasItem under Node. -/
def c1Schema : Schema :=
  [("Node", none), ("CanvasItem", some "Node"), ("Node2D", some "CanvasItem")]

/-- The real upper Godot hierarchy around the branch roots. -/
def godotPm : ParentMap :=
  [("Node3D", "Node"), ("CanvasItem", "Node"), ("Node2D", "CanvasItem"),
   ("Control", "CanvasItem")]

def godotNts : List String := ["CanvasItem", "Control", "Node2D", "Node3D"]

/-- Depth measure for `godotPm` (parents strictly closer to the root). -/
def godotMeas : String → Nat :=
  fun s =>
    if s = "Node" then 0
    else if s = "Node2D" then 2
    else if s = "Control" then 2
    else 1

/-- A parent map making X a descendant of both Node3D and Node2D. -/
def sharedPm : ParentMap :=
  [("X", "Node3D"), ("Node3D", "Node2D"), ("Node2D", "Node")]

def emptyCats : Categories := ⟨[], [], [], []⟩

def c5_nts : List String := ["CSGBox3D"]

def c5_pm : ParentMap := [("CSGBox3D", "Node3D"), ("Node3D", "Node")]

def sprite_nts : List String := ["Sprite2D"]

def sprite_pm : ParentMap :=
  [("Sprite2D", "Node2D"), ("Node2D", "CanvasItem"), ("CanvasItem", "Node")]

def c3_env : PipelineEnv := ⟨true, true, true, false, true, some true⟩

def c4_env : PipelineEnv := ⟨true, true, true, true, true, none⟩

def ok_env : PipelineEnv := ⟨true, true, true, true, true, some true⟩

def warn_env : PipelineEnv := ⟨true, true, true, true, true, some false⟩

/-! ### Verification-layer definitions -/

/-- Edge relation of a `ChildrenMap`: `v` is a (direct) child of `u`. -/
def childEdge (m : ChildrenMap) (u v : String) : Prop := v ∈ childrenOf m u

/-- Pure (context-free) version of the descendant collection: the set of
classes `collect_aux` adds on top of its accumulator. -/
def collectSpec : Nat → ChildrenMap → String → Finset String
  | 0, _, c => {c}
  | fuel + 1, m, c =>
      insert c ((childrenOf m c).foldr (fun ch acc => collectSpec fuel m ch ∪ acc) ∅)

/-! ## Lemmas about the descendant collector -/

theorem mem_foldr_union (x : String) (f : String → Finset String) :
    ∀ l : List String,
      (x ∈ l.foldr (fun ch acc => f ch ∪ acc) (∅ : Finset String)) ↔ ∃ ch ∈ l, x ∈ f ch := by
  intro l
  induction l with
  | nil => simp
  | cons a l ih => simp [ih]

theorem mem_collect_aux (x : String) (m : ChildrenMap) :
    ∀ (fuel : Nat) (c : String) (acc : List String),
      x ∈ collect_aux fuel m c acc ↔ x ∈ acc ∨ x ∈ collectSpec fuel m c := by
  intro fuel
  induction fuel with
  | zero =>
    intro c acc
    by_cases h : c ∈ acc
    · simp only [collect_aux, if_pos h, collectSpec, Finset.mem_singleton]
      constructor
      · exact fun hx => Or.inl hx
      · rintro (hx | rfl)
        · exact hx
        · exact h
    · simp [collect_aux, if_neg h, collectSpec, List.mem_append]
  | succ f ih =>
    have hfold : ∀ (l : List String) (acc : List String),
        x ∈ l.foldl (fun a ch => collect_aux f m ch a) acc ↔
          x ∈ acc ∨ ∃ ch ∈ l, x ∈ collectSpec f m ch := by
      intro l
      induction l with
      | nil => simp
      | cons a l ihl =>
        intro acc
        rw [List.foldl_cons, ihl, ih]
        simp only [List.mem_cons]
        constructor
        · rintro ((h1 | h1) | ⟨ch, h1, h2⟩)
          · exact Or.inl h1
          · exact Or.inr ⟨a, Or.inl rfl, h1⟩
          · exact Or.inr ⟨ch, Or.inr h1, h2⟩
        · rintro (h1 | ⟨ch, (h1 | h1), h2⟩)
          · exact Or.inl (Or.inl h1)
          · exact Or.inl (Or.inr (h1 ▸ h2))
          · exact Or.inr ⟨ch, h1, h2⟩
    intro c acc
    rw [collect_aux, hfold]
    by_cases h : c ∈ acc
    · simp only [if_pos h, collectSpec, Finset.mem_insert, mem_foldr_union]
      constructor
      · rintro (h1 | h1)
        · exact Or.inl h1
        · exact Or.inr (Or.inr h1)
      · rintro (h1 | rfl | h1)
        · exact Or.inl h1
        · exact Or.inl h
        · exact Or.inr h1
    · simp only [if_neg h, collectSpec, Finset.mem_insert, mem_foldr_union, List.mem_append,
        List.mem_singleton]
      tauto

theorem self_mem_collectSpec (m : ChildrenMap) (c : String) :
    ∀ fuel : Nat, c ∈ collectSpec fuel m c := by
  intro fuel
  cases fuel with
  | zero => simp [collectSpec]
  | succ f => simp [collectSpec]

theorem collectSpec_subset_reach (m : ChildrenMap) (x : String) :
    ∀ (fuel : Nat) (c : String), x ∈ collectSpec fuel m c →
      Relation.ReflTransGen (childEdge m) c x := by
  intro fuel
  induction fuel with
  | zero =>
    intro c h
    simp [collectSpec] at h
    exact h ▸ Relation.ReflTransGen.refl
  | succ f ih =>
    intro c h
    rw [collectSpec, Finset.mem_insert, mem_foldr_union] at h
    rcases h with h | ⟨ch, hch, hmem⟩
    · exact h ▸ Relation.ReflTransGen.refl
    · exact Relation.ReflTransGen.head hch (ih ch hmem)

theorem childEdge_meas_lt {m : ChildrenMap} {meas : String → Nat}
    (hinc : ∀ p ∈ m, ∀ ch ∈ p.2, meas p.1 < meas ch) {u v : String}
    (h : childEdge m u v) : meas u < meas v := by
  unfold childEdge childrenOf at h
  cases hfind : m.find? (fun q => decide (q.1 = u)) with
  | none => rw [hfind] at h; simp at h
  | some q =>
    rw [hfind] at h
    have hq : q ∈ m := List.mem_of_find?_eq_some hfind
    have hkey : q.1 = u := by
      have hb := List.find?_some hfind
      simpa using hb
    have := hinc q hq v h
    rw [hkey] at this
    exact this

theorem reach_meas_le {m : ChildrenMap} {meas : String → Nat}
    (hinc : ∀ p ∈ m, ∀ ch ∈ p.2, meas p.1 < meas ch) {u v : String}
    (h : Relation.ReflTransGen (childEdge m) u v) : meas u ≤ meas v := by
  induction h with
  | refl => exact le_refl _
  | tail h1 e ih => exact le_trans ih (le_of_lt (childEdge_meas_lt hinc e))

theorem reach_mem_collectSpec {m : ChildrenMap} {meas : String → Nat}
    (hinc : ∀ p ∈ m, ∀ ch ∈ p.2, meas p.1 < meas ch) {d u : String}
    (h : Relation.ReflTransGen (childEdge m) u d) :
    ∀ fuel : Nat, meas d < fuel + meas u → d ∈ collectSpec fuel m u := by
  induction h using Relation.ReflTransGen.head_induction_on with
  | refl =>
    intro fuel hb
    exact self_mem_collectSpec m d fuel
  | head h1 h2 ih =>
    rename_i a c
    intro fuel hb
    have hac : meas a < meas c := childEdge_meas_lt hinc h1
    have hcd : meas c ≤ meas d := reach_meas_le hinc h2
    cases fuel with
    | zero => omega
    | succ f =>
      rw [collectSpec, Finset.mem_insert, mem_foldr_union]
      exact Or.inr ⟨c, h1, ih f (by omega)⟩

/-- Parent lookup respects a measure that is strictly decreasing towards the
root: the looked-up parent measures strictly below the class. -/
theorem lookupParent_meas_lt {pm : ParentMap} {meas : String → Nat}
    (hinc : ∀ p ∈ pm, meas p.2 < meas p.1) {x par : String}
    (h : lookupParent pm x = some par) : meas par < meas x := by
  unfold lookupParent at h
  cases hfind : pm.find? (fun q => decide (q.1 = x)) with
  | none => rw [hfind] at h; simp at h
  | some q =>
    rw [hfind] at h
    simp only [Option.map, Option.some.injEq] at h
    have hq : q ∈ pm := List.mem_of_find?_eq_some hfind
    have hkey : q.1 = x := by
      have hb := List.find?_some hfind
      simpa using hb
    have := hinc q hq
    rw [hkey, h] at this
    exact this

/-- Under an acyclic parent map (witnessed by a measure strictly decreasing
towards the root), the ancestor walk never finds a target whose measure is at
least the start: ancestors measure strictly below the starting class. -/
theorem is_descendant_of_false_of_le {pm : ParentMap} {meas : String → Nat}
    (hinc : ∀ p ∈ pm, meas p.2 < meas p.1) :
    ∀ (fuel : Nat) (x a : String), meas x ≤ meas a → is_descendant_of fuel pm x a = false := by
  intro fuel
  induction fuel with
  | zero => intro x a _; rfl
  | succ f ih =>
    intro x a hle
    rw [is_descendant_of]
    cases hl : lookupParent pm x with
    | none => rfl
    | some p =>
      have hpx : meas p < meas x := lookupParent_meas_lt hinc hl
      have hne : p ≠ a := by
        intro he
        rw [he] at hpx
        omega
      show (if p = a then true else is_descendant_of f pm p a) = false
      rw [if_neg hne]
      exact ih p a (by omega)

/-- C6: the Descendant Collector returns exactly the root plus every class
transitively reachable from it along children-of edges.  The acyclicity the
schema guarantees is stated as a measure strictly increasing along edges, and
the fuel must dominate the measure of every child (any fuel at least the
graph depth works).  The two concrete graphs of the claim are also settled:
collecting from Root yields exactly the set Root, A, B, A1, and collecting
from A yields exactly the set A, A1. -/
theorem collect_descendants_correct (m : ChildrenMap) (root : String) (fuel : Nat)
    (meas : String → Nat)
    (hinc : ∀ p ∈ m, ∀ ch ∈ p.2, meas p.1 < meas ch)
    (hbound : ∀ p ∈ m, ∀ ch ∈ p.2, meas ch < fuel + meas root) :
    (∀ d, d ∈ collect_descendants fuel m root ↔
      Relation.ReflTransGen (childEdge m) root d)
    ∧ (collect_descendants 4 exampleGraph "Root").toFinset = {"Root", "A", "B", "A1"}
    ∧ (collect_descendants 4 exampleGraph "A").toFinset = {"A", "A1"} := by
  refine ⟨?_, by decide, by decide⟩
  intro d
  rw [collect_descendants, mem_collect_aux]
  simp only [List.not_mem_nil, false_or]
  constructor
  · exact collectSpec_subset_reach m d fuel root
  · intro h
    rcases Relation.ReflTransGen.cases_tail h with heq | ⟨c, _, hedge⟩
    · exact heq ▸ self_mem_collectSpec m d fuel
    · have hd : meas d < fuel + meas root := by
        unfold childEdge childrenOf at hedge
        cases hfind : m.find? (fun q => decide (q.1 = c)) with
        | none => rw [hfind] at hedge; simp at hedge
        | some q =>
          rw [hfind] at hedge
          exact hbound q (List.mem_of_find?_eq_some hfind) d hedge
      exact reach_mem_collectSpec hinc h fuel hd

theorem collect_descendants_correct_witness :
    ("A1" ∈ collect_descendants 4 exampleGraph "Root" ↔
      Relation.ReflTransGen (childEdge exampleGraph) "Root" "A1") :=
  (collect_descendants_correct exampleGraph "Root" 4 exampleMeas
    (by decide) (by decide)).1 "A1"

/-- C10: the ancestor walk is strict -- under the acyclic parent maps the
schema provides (witnessed by a measure strictly decreasing towards the
root), no class is a descendant of itself, because the walk starts at the
class's parent.  Consequently, on the real upper Godot hierarchy, the branch
root Node3D (parent Node) lands in the universal catch-all bucket, while
Node2D and Control (parent CanvasItem) land in no bucket at all. -/
theorem is_descendant_strict (fuel : Nat) (pm : ParentMap) (meas : String → Nat)
    (hinc : ∀ p ∈ pm, meas p.2 < meas p.1) :
    (∀ c, is_descendant_of fuel pm c c = false)
    ∧ "Node3D" ∈ (categorize_types_by_hierarchy 5 godotNts godotPm).universal
    ∧ "Node3D" ∉ (categorize_types_by_hierarchy 5 godotNts godotPm).threeD
    ∧ "Node2D" ∉ (categorize_types_by_hierarchy 5 godotNts godotPm).threeD
    ∧ "Node2D" ∉ (categorize_types_by_hierarchy 5 godotNts godotPm).twoD
    ∧ "Node2D" ∉ (categorize_types_by_hierarchy 5 godotNts godotPm).control
    ∧ "Node2D" ∉ (categorize_types_by_hierarchy 5 godotNts godotPm).universal
    ∧ "Control" ∉ (categorize_types_by_hierarchy 5 godotNts godotPm).threeD
    ∧ "Control" ∉ (categorize_types_by_hierarchy 5 godotNts godotPm).twoD
    ∧ "Control" ∉ (categorize_types_by_hierarchy 5 godotNts godotPm).control
    ∧ "Control" ∉ (categorize_types_by_hierarchy 5 godotNts godotPm).universal := by
  refine ⟨fun c => is_descendant_of_false_of_le hinc fuel c c (le_refl _), ?_⟩
  refine ⟨by decide, by decide, by decide, by decide, by decide, by decide, by decide,
    by decide, by decide, by decide⟩

theorem is_descendant_strict_witness :
    is_descendant_of 7 godotPm "Node2D" "Node2D" = false :=
  (is_descendant_strict 7 godotPm godotMeas (by decide)).1 "Node2D"

/-! ## Lemmas about the categorizer -/

/-- Bucket membership: a class sits in a bucket iff it is in the input list
and the if/elif chain selects that bucket for it. -/
theorem mem_bucketOf_iff (fuel : Nat) (nts : List String) (pm : ParentMap) (t : String)
    (cat : Category) :
    t ∈ bucketOf cat (categorize_types_by_hierarchy fuel nts pm) ↔
      t ∈ nts ∧ categoryOf fuel pm t = some cat := by
  cases cat <;>
    simp [bucketOf, categorize_types_by_hierarchy, List.mem_filter]

/-- C1 counterexample: on a schema whose filtered taxonomy contains Node2D
(parent CanvasItem), Node2D is a member of the filtered taxonomy yet lands in
none of the four buckets, so the category assignment is not total. -/
theorem categorize_totality_counterexample :
    "Node2D" ∈ filtered_types c1Schema
    ∧ "Node2D" ∉ (categorize_types_by_hierarchy ((parent_map c1Schema).length + 1)
        (filtered_types c1Schema) (parent_map c1Schema)).threeD
    ∧ "Node2D" ∉ (categorize_types_by_hierarchy ((parent_map c1Schema).length + 1)
        (filtered_types c1Schema) (parent_map c1Schema)).twoD
    ∧ "Node2D" ∉ (categorize_types_by_hierarchy ((parent_map c1Schema).length + 1)
        (filtered_types c1Schema) (parent_map c1Schema)).control
    ∧ "Node2D" ∉ (categorize_types_by_hierarchy ((parent_map c1Schema).length + 1)
        (filtered_types c1Schema) (parent_map c1Schema)).universal := by
  decide

/-- C1 (amended): the categorizer assigns every class to AT MOST one bucket
(mutual exclusivity holds), and a class of the filtered taxonomy is in some
bucket iff its if/elif chain selects one: a strict descendant of Node3D,
Node2D or Control, or a direct child of Node.  Totality fails for classes
matching none of these (see the counterexample). -/
theorem categorize_buckets_amended (fuel : Nat) (nts : List String) (pm : ParentMap)
    (t : String) :
    (∀ cat, t ∈ bucketOf cat (categorize_types_by_hierarchy fuel nts pm) ↔
      t ∈ nts ∧ categoryOf fuel pm t = some cat)
    ∧ (∀ cat cat2, t ∈ bucketOf cat (categorize_types_by_hierarchy fuel nts pm) →
        t ∈ bucketOf cat2 (categorize_types_by_hierarchy fuel nts pm) → cat = cat2) := by
  refine ⟨fun cat => mem_bucketOf_iff fuel nts pm t cat, ?_⟩
  intro cat cat2 h1 h2
  rw [mem_bucketOf_iff] at h1 h2
  have := h1.2.symm.trans h2.2
  exact Option.some.inj this

theorem categorize_buckets_amended_witness :
    "Sprite2D" ∈ bucketOf Category.c2d (categorize_types_by_hierarchy 4 sprite_nts sprite_pm) :=
  ((categorize_buckets_amended 4 sprite_nts sprite_pm "Sprite2D").1 Category.c2d).mpr (by decide)

/-- C7: categorization precedence is first-match-wins in the fixed order
Node3D, Node2D, Control, direct-Node: a class passing the Node3D test is
assigned 3d no matter what else matches; a class passing the Node2D test is
assigned 3d or 2d; a class passing the Control test is assigned 3d, 2d or
control; bucket assignment depends only on the class and the parent map, so
it is invariant under permutation of the input set. -/
theorem categorize_precedence_first_match (fuel : Nat) (nts nts2 : List String)
    (pm : ParentMap) (t : String) :
    (is_descendant_of fuel pm t "Node3D" = true → categoryOf fuel pm t = some Category.c3d)
    ∧ (is_descendant_of fuel pm t "Node2D" = true →
        categoryOf fuel pm t = some Category.c3d ∨ categoryOf fuel pm t = some Category.c2d)
    ∧ (is_descendant_of fuel pm t "Control" = true →
        categoryOf fuel pm t = some Category.c3d ∨ categoryOf fuel pm t = some Category.c2d
        ∨ categoryOf fuel pm t = some Category.control)
    ∧ (∀ cat, t ∈ bucketOf cat (categorize_types_by_hierarchy fuel nts pm) ↔
        t ∈ nts ∧ categoryOf fuel pm t = some cat)
    ∧ (nts.Perm nts2 → ∀ cat,
        (t ∈ bucketOf cat (categorize_types_by_hierarchy fuel nts pm) ↔
         t ∈ bucketOf cat (categorize_types_by_hierarchy fuel nts2 pm))) := by
  refine ⟨?_, ?_, ?_, fun cat => mem_bucketOf_iff fuel nts pm t cat, ?_⟩
  · intro h
    rw [categoryOf, if_pos h]
  · intro h
    by_cases h3 : is_descendant_of fuel pm t "Node3D" = true
    · exact Or.inl (by rw [categoryOf, if_pos h3])
    · exact Or.inr (by rw [categoryOf, if_neg h3, if_pos h])
  · intro h
    by_cases h3 : is_descendant_of fuel pm t "Node3D" = true
    · exact Or.inl (by rw [categoryOf, if_pos h3])
    · by_cases h2 : is_descendant_of fuel pm t "Node2D" = true
      · exact Or.inr (Or.inl (by rw [categoryOf, if_neg h3, if_pos h2]))
      · exact Or.inr (Or.inr (by rw [categoryOf, if_neg h3, if_neg h2, if_pos h]))
  · intro hperm cat
    rw [mem_bucketOf_iff, mem_bucketOf_iff, hperm.mem_iff]

theorem categorize_precedence_first_match_witness :
    categoryOf 4 sharedPm "X" = some Category.c3d ∧
    is_descendant_of 4 sharedPm "X" "Node2D" = true :=
  ⟨(categorize_precedence_first_match 4 ["X"] ["X"] sharedPm "X").1 (by decide), by decide⟩

/-! ## Lemmas about the emitters -/

theorem foldl_append_strConcat (f : String → String) :
    ∀ (l : List String) (init : String),
      l.foldl (fun content t => content ++ f t) init = init ++ strConcat (l.map f) := by
  intro l
  induction l with
  | nil => intro init; simp [strConcat, String.append_empty]
  | cons a l ih =>
    intro init
    rw [List.foldl_cons, ih, List.map_cons]
    show init ++ f a ++ strConcat (f a :: l.map f).tail = init ++ strConcat (f a :: l.map f)
    rw [String.append_assoc]
    rfl

/-- C8: the marker emitter writes the header followed by one declaration
chunk per class, in input order; a class not listed in the version-gate table
gets a chunk with no cfg annotation, and a class listed under a gate tag gets
exactly the cfg annotation of its tag prepended. -/
theorem marker_gate_annotations (node_types : List String) (t : String) :
    (generate_node_markers_content node_types =
      node_markers_header ++ strConcat (node_types.map marker_decl))
    ∧ ((∀ v ∈ version_gated_types, t ∉ v.2) →
        marker_decl t = derive_line ++ struct_line t)
    ∧ (∀ v ∈ version_gated_types, t ∈ v.2 →
        marker_decl t = "#[cfg(feature = \"api-" ++ v.1 ++ "\")]\n" ++ derive_line
          ++ struct_line t) := by
  refine ⟨foldl_append_strConcat marker_decl node_types node_markers_header, ?_, ?_⟩
  · intro h
    have hn : t ∉ ["LookAtModifier3D", "RetargetModifier3D", "SpringBoneSimulator3D",
        "SpringBoneCollision3D", "SpringBoneCollisionCapsule3D",
        "SpringBoneCollisionPlane3D", "SpringBoneCollisionSphere3D"] :=
      h ("4-4",
        ["LookAtModifier3D", "RetargetModifier3D", "SpringBoneSimulator3D",
         "SpringBoneCollision3D", "SpringBoneCollisionCapsule3D",
         "SpringBoneCollisionPlane3D", "SpringBoneCollisionSphere3D"])
        (by simp [version_gated_types])
    simp [marker_decl, get_type_cfg_attribute, version_gated_types, List.find?, hn,
      String.empty_append]
  · intro v hv ht
    have hv2 : v = ("4-4",
        ["LookAtModifier3D", "RetargetModifier3D", "SpringBoneSimulator3D",
         "SpringBoneCollision3D", "SpringBoneCollisionCapsule3D",
         "SpringBoneCollisionPlane3D", "SpringBoneCollisionSphere3D"]) := by
      simpa [version_gated_types] using hv
    subst hv2
    simp only at ht
    simp [marker_decl, get_type_cfg_attribute, version_gated_types, List.find?, ht]

theorem marker_gate_annotations_witness :
    marker_decl "Sprite2D" = derive_line ++ struct_line "Sprite2D"
    ∧ marker_decl "LookAtModifier3D" =
        "#[cfg(feature = \"api-4-4\")]\n" ++ derive_line ++ struct_line "LookAtModifier3D" :=
  ⟨(marker_gate_annotations [] "Sprite2D").2.1 (by decide),
   (marker_gate_annotations [] "LookAtModifier3D").2.2
     ("4-4",
      ["LookAtModifier3D", "RetargetModifier3D", "SpringBoneSimulator3D",
       "SpringBoneCollision3D", "SpringBoneCollisionCapsule3D",
       "SpringBoneCollisionPlane3D", "SpringBoneCollisionSphere3D"])
     (by decide) (by decide)⟩

/-- C9: a type-name string that is not among the generated match arms falls
through to the empty default arm: the generated function inserts only the
base NodeMarker and raises no error (it is a total function). -/
theorem unrecognized_string_fallback (cats : Categories) (s : String)
    (h : s ∉ string_match_arm_names cats) :
    add_node_type_markers_from_string cats s = ["NodeMarker"] := by
  have hf : (string_match_arms cats).find? (fun a => decide (a.1 = s)) = none := by
    rw [List.find?_eq_none]
    intro x hx
    simp only [decide_eq_true_eq]
    intro he
    exact h (he ▸ List.mem_map_of_mem (fun a => a.1) hx)
  rw [add_node_type_markers_from_string, hf]

theorem unrecognized_string_fallback_witness :
    add_node_type_markers_from_string emptyCats "MyCustomSubclass" = ["NodeMarker"] :=
  unrecognized_string_fallback emptyCats "MyCustomSubclass" (by decide)

/-! ## Lemmas about the two name sets (string dispatcher vs GDScript classifier) -/

theorem mem_insertSorted (x a : String) :
    ∀ l : List String, x ∈ insertSorted a l ↔ x = a ∨ x ∈ l := by
  intro l
  induction l with
  | nil => simp [insertSorted]
  | cons b l ih =>
    rw [insertSorted]
    by_cases h : leChars a.data b.data = true
    · simp [h]
    · simp only [if_neg h, List.mem_cons, ih]
      tauto

theorem mem_pySorted (x : String) : ∀ l : List String, x ∈ pySorted l ↔ x ∈ l := by
  intro l
  induction l with
  | nil => simp [pySorted]
  | cons a l ih =>
    show x ∈ insertSorted a (pySorted l) ↔ x ∈ a :: l
    rw [mem_insertSorted, List.mem_cons, ih]

theorem map_fst_pairs (f : String → List String) (l : List String) :
    (l.map (fun t => (t, f t))).map (fun a => a.1) = l := by
  induction l with
  | nil => rfl
  | cons a l ih => simp only [List.map_cons, ih]

/-- The match-arm pattern list, with the marker payloads projected away. -/
theorem string_match_arm_names_eq (cats : Categories) :
    string_match_arm_names cats =
      ["Node3D", "Node2D", "Control", "CanvasItem", "Node"]
      ++ cats.threeD.filter (fun t => !(decide (t = "Node3D")))
      ++ cats.twoD.filter (fun t => !(decide (t = "Node2D")))
      ++ cats.control.filter (fun t => !(decide (t = "Control")))
      ++ cats.universal.filter (fun t => !(decide (t ∈ ["Node", "CanvasItem", "Node3D"]))) := by
  unfold string_match_arm_names string_match_arms
  rw [List.map_append, List.map_append, List.map_append, List.map_append,
    map_fst_pairs, map_fst_pairs, map_fst_pairs, map_fst_pairs]
  rfl

/-- Membership normal form for the set of match-arm patterns. -/
theorem mem_string_match_arm_names (cats : Categories) (x : String) :
    x ∈ string_match_arm_names cats ↔
      x ∈ cats.threeD ∨ x ∈ cats.twoD ∨ x ∈ cats.control ∨ x ∈ cats.universal
      ∨ x = "Node3D" ∨ x = "Node2D" ∨ x = "Control" ∨ x = "CanvasItem" ∨ x = "Node" := by
  rw [string_match_arm_names_eq]
  simp only [List.mem_append, List.mem_filter, List.mem_cons, List.not_mem_nil, or_false,
    Bool.not_eq_true', decide_eq_false_iff_not, decide_eq_true_eq]
  by_cases h1 : x = "Node3D" <;> by_cases h2 : x = "Node2D" <;> by_cases h3 : x = "Control" <;>
    by_cases h4 : x = "CanvasItem" <;> by_cases h5 : x = "Node"
  all_goals simp [h1, h2, h3, h4, h5]
  all_goals tauto

/-- Membership normal form for the set of strings the GDScript classifier
can return. -/
theorem mem_gdscript_return_names (cats : Categories) (x : String) :
    x ∈ gdscript_return_names cats ↔
      x ∈ cats.threeD ∨ x ∈ cats.twoD ∨ x ∈ cats.control ∨ x ∈ cats.universal
      ∨ x = "Node3D" ∨ x = "Node2D" ∨ x = "Control" ∨ x = "Node" := by
  unfold gdscript_return_names gdscript_branch_returns gdscript_universal_returns
  simp only [List.mem_append, List.mem_filter, mem_pySorted, List.mem_singleton,
    Bool.not_eq_true', decide_eq_false_iff_not, decide_eq_true_eq]
  tauto

/-- C2 counterexample: for the empty categorized model, the string-keyed
dispatcher handles the name CanvasItem (one of its five base arms) while the
GDScript classifier can never return it, so the two name sets differ. -/
theorem arm_names_classifier_counterexample :
    "CanvasItem" ∈ string_match_arm_names emptyCats
    ∧ "CanvasItem" ∉ gdscript_return_names emptyCats
    ∧ (string_match_arm_names emptyCats).toFinset ≠ (gdscript_return_names emptyCats).toFinset := by
  decide

/-- C2 (amended): for every categorized model, the set of names handled by
the string-keyed dispatcher equals the set of names the GDScript classifier
can return PLUS the name CanvasItem; hence the two sets coincide exactly when
CanvasItem occurs in one of the four buckets (as it does for every real Godot
schema, where CanvasItem is a direct child of Node). -/
theorem arm_names_classifier_amended (cats : Categories) :
    (string_match_arm_names cats).toFinset =
      insert "CanvasItem" (gdscript_return_names cats).toFinset := by
  ext x
  simp only [List.mem_toFinset, Finset.mem_insert]
  rw [mem_string_match_arm_names, mem_gdscript_return_names]
  by_cases h : x = "CanvasItem" <;> simp [h]

/-! ## Pipeline atomicity and the Integration Verifier -/

/-- C3 counterexample: a run whose type-checking generation step fails exits
non-zero with exactly one artifact (the marker file) freshly written -- a
proper, non-empty subset of the artifact set, so the artifact set is not
atomic. -/
theorem pipeline_atomicity_counterexample :
    (run_pipeline c3_env).exit_code ≠ 0
    ∧ (run_pipeline c3_env).written ≠ []
    ∧ (run_pipeline c3_env).written ≠ artifact_files
    ∧ (run_pipeline c3_env).written = [GenFile.node_markers] := by
  decide

/-- C3 (amended): every run writes a PREFIX of the artifact list (markers,
then type checking, then the GDScript watcher): a fatal error aborts before
any further file is written, but files already written stay written, so a
mid-run failure leaves a proper subset freshly written.  A zero exit means
all artifacts were written, and the exit code is always 0 or 1. -/
theorem pipeline_atomicity_amended (env : PipelineEnv) :
    ((run_pipeline env).written =
      artifact_files.take (run_pipeline env).written.length)
    ∧ ((run_pipeline env).exit_code = 0 → (run_pipeline env).written = artifact_files)
    ∧ ((run_pipeline env).exit_code = 0 ∨ (run_pipeline env).exit_code = 1) := by
  obtain ⟨d, p, mw, tw, gw, pf⟩ := env
  rcases pf with _ | b <;> cases d <;> cases p <;> cases mw <;> cases tw <;> cases gw <;>
      (try cases b) <;> decide

theorem pipeline_atomicity_amended_witness :
    (run_pipeline ok_env).written = artifact_files :=
  (pipeline_atomicity_amended ok_env).2.1 (by decide)

/-- C4 counterexample: when the plugin (consumer) file is absent, the read in
`verify_plugin_integration` raises, the generic handler catches it, and the
run exits 1 -- not 0 -- even though all artifacts were written and the
consumer file was never modified. -/
theorem consumer_missing_counterexample :
    (run_pipeline c4_env).exit_code = 1
    ∧ GenFile.plugin ∉ (run_pipeline c4_env).written
    ∧ (run_pipeline c4_env).written = artifact_files := by
  decide

/-- C4 (amended): the pipeline never writes the consumer (plugin) file; when
all generation steps succeed, a PRESENT consumer file -- whether or not it
references the generated entry point -- yields a zero exit, with a warning
exactly when the reference is missing; but an ABSENT consumer file makes the
run exit 1 (the artifacts having been written). -/
theorem consumer_missing_amended (env : PipelineEnv) (b : Bool) :
    (GenFile.plugin ∉ (run_pipeline env).written)
    ∧ (env.dump_ok = true → env.parse_ok = true → env.markers_write_ok = true →
       env.type_checking_write_ok = true → env.gdscript_write_ok = true →
        ((env.plugin_file = none →
            (run_pipeline env).exit_code = 1 ∧ (run_pipeline env).written = artifact_files)
         ∧ (env.plugin_file = some b →
            (run_pipeline env).exit_code = 0 ∧ (run_pipeline env).written = artifact_files
            ∧ (run_pipeline env).warned = !b))) := by
  obtain ⟨d, p, mw, tw, gw, pf⟩ := env
  cases b <;> rcases pf with _ | b2 <;> cases d <;> cases p <;> cases mw <;> cases tw <;>
      cases gw <;> (try cases b2) <;> decide

theorem consumer_missing_amended_witness :
    (run_pipeline warn_env).exit_code = 0 ∧ (run_pipeline warn_env).written = artifact_files
    ∧ (run_pipeline warn_env).warned = !false :=
  ((consumer_missing_amended warn_env false).2 rfl rfl rfl rfl rfl).2 rfl

/-! ## Emitter member sets -/

/-- C5 counterexample: with a taxonomy containing CSGBox3D (a Node3D
descendant that `filter_valid_godot_classes` removes), the marker emitter
emits a declaration for CSGBox3D but the dispatcher emitters generate no
probe or match arm for it, so the two member sets differ. -/
theorem marker_dispatcher_sets_counterexample :
    "CSGBox3D" ∈ marker_member_names c5_nts
    ∧ "CSGBox3D" ∉ dispatcher_member_names 3 c5_nts c5_pm
    ∧ (marker_member_names c5_nts).toFinset ≠ (dispatcher_member_names 3 c5_nts c5_pm).toFinset := by
  decide

/-- C5 (amended): all emitters are driven by the same `(node_types,
parent_map)` data, but the dispatcher emitters cover only the classes that
survive `filter_valid_godot_classes` AND land in a category bucket: every
class they generate probes and match arms for has a marker declaration (the
dispatcher member set is a subset of the marker member set), while the
converse fails. -/
theorem marker_dispatcher_sets_amended (fuel : Nat) (nts : List String) (pm : ParentMap)
    (t : String) (h : t ∈ dispatcher_member_names fuel nts pm) :
    t ∈ marker_member_names nts := by
  unfold dispatcher_member_names categorize_types_by_hierarchy at h
  unfold marker_member_names
  simp only [List.mem_append, List.mem_filter, filter_valid_godot_classes] at h
  tauto

theorem marker_dispatcher_sets_amended_witness :
    "Sprite2D" ∈ marker_member_names sprite_nts :=
  marker_dispatcher_sets_amended 4 sprite_nts sprite_pm "Sprite2D" (by decide)

end GodotGen
